import Mathlib

set_option maxHeartbeats 1000000

/- Verification development for the milling data preparation and
cross-validation training code of this repository
(src/data/data_prep_utils.py, src/models/train.py, src/models/utils.py).
Machine floats are modelled by rationals, numpy arrays by lists, and
dataframes by lists of rows.  Each definition cites the source lines it
embeds. -/

/-- Null-tolerant `<`: a pandas null is a float NaN, and NaN comparisons are
false, so `vb < 0.2` at data_prep_utils.py line 224 is false on a null. -/
def vbLt : Option ℚ → ℚ → Bool
  | none, _ => false
  | some x, c => decide (x < c)

/-- Null-tolerant `>=`: NaN comparisons are false, so `vb >= 0.2` at
data_prep_utils.py line 226 is false on a null. -/
def vbGe : Option ℚ → ℚ → Bool
  | none, _ => false
  | some x, c => decide (c ≤ x)

/-- `tool_state` from data_prep_utils.py lines 213-231: 0 for `vb < 0.2`,
1 for `0.2 <= vb < 0.7`, the `pd.isnull` branch falls through (`pass`), so a
null wear value yields Python `None`, modelled as `Option.none`; everything
else returns 2. -/
def tool_state (vb : Option ℚ) : Option ℤ :=
  if vbLt vb (2/10) then some 0
  else if vbGe vb (2/10) && vbLt vb (7/10) then some 1
  else if vb.isNone then none
  else some 2

/-- The dtype field names of the `mill` structured array in mill.mat:
7 scalar metadata fields followed by the 6 signal channels.  The code pins
these names: `df_labels["VB"]` (line 234) and the hard-coded lowercased
channel column names of `create_xy_dataframe` (lines 387-398) only work for
exactly this dtype. -/
def millFieldNames : List String :=
  ["case", "run", "VB", "time", "DOC", "feed", "material",
   "smcAC", "smcDC", "vib_table", "vib_spindle", "AE_table", "AE_spindle"]

/-- `self.signal_names = self.field_names[7:][::-1]` (data_prep_utils.py
line 185): the signal fields in reverse dtype order. -/
def millSignalNames : List String := (millFieldNames.drop 7).reverse

/-- `col_names_ordered` from create_xy_dataframe (data_prep_utils.py
lines 387-398). -/
def colNamesOrdered : List String :=
  ["cut_id", "case", "time", "ae_spindle", "ae_table", "vib_spindle",
   "vib_table", "smcdc", "smcac", "tool_class"]

/-- The raw mill recording: `meta j i` is scalar metadata field `i` of cut
`j` (`self.data[0, j][i][0][0]`, line 203; `none` models a null), and
`signal s j t` is sample `t` of channel `s` of cut `j`
(`cut[signal_name]`, line 263). -/
structure MillRaw where
  meta : ℕ → ℕ → Option ℚ
  signal : String → ℕ → ℕ → ℚ

/-- The 9000 x 6 per-cut signal matrix of data_prep_utils.py lines 260-267:
row `t` lists the channels in `signal_names` order (each channel is
`reshape((9000, 1))`-ed, so exactly 9000 samples). -/
def cutArray (d : MillRaw) (c : ℕ) : List (List ℚ) :=
  (List.range 9000).map (fun t => millSignalNames.map (fun s => d.signal s c t))

/-- One row of the label CSV as used by create_data_array: columns
`cut_no`, `window_start`, `window_end`, `tool_class` (data_prep_utils.py
lines 256, 270-271, 280, 297; `int(label)` makes the class an integer). -/
structure LabelRow where
  cut_no : ℕ
  window_start : ℕ
  window_end : ℕ
  tool_class : ℤ
deriving DecidableEq

/-- `df.drop(cut_drop_list)` followed by `reset_index(drop=True)`
(data_prep_utils.py lines 174-176): remove the rows whose index label (the
original row position) is listed, then renumber. -/
def dropByIndex (rows : List LabelRow) (idxs : List ℕ) : List LabelRow :=
  (rows.enum.filter (fun p => ! idxs.contains p.1)).map Prod.snd

/-- The state built by `MillingDataPrep.__init__`
(data_prep_utils.py lines 130-185). -/
structure MillPrep where
  data : MillRaw
  window_size : ℕ
  stride : ℕ
  cut_drop_list : Option (List ℕ)
  df_labels : Option (List LabelRow)

/-- `MillingDataPrep.__init__` (data_prep_utils.py lines 130-185).  When
`path_df_labels is None` the constructor only prints
"Warning: no csv defined for creating labels. Create one." (line 170) and
`self.df_labels` is never assigned; otherwise the CSV table is loaded, the
`cut_drop_list` rows are dropped by index and the index is reset.  The
source also asserts `window_size > 0`, `stride > 0` and that the data file
exists (lines 164-166); no claim depends on those assertions. -/
def millInit (d : MillRaw) (labels : Option (List LabelRow))
    (drop : Option (List ℕ)) (w s : ℕ) : MillPrep :=
  { data := d
    window_size := w
    stride := s
    cut_drop_list := drop
    df_labels :=
      match labels with
      | none => none
      | some t =>
        match drop with
        | none => some t
        | some ds => some (dropByIndex t ds) }

/-- A generic dataframe with named columns, used for the output of
`create_labels`: `cols` is the column order, and each row maps a column
name to its (possibly null) value. -/
structure DfCols where
  cols : List String
  rows : List (String → Option ℚ)

/-- Position of the `"VB"` column among the first 7 field names
(`df_labels["VB"]`, data_prep_utils.py line 234). -/
def vbIdx : ℕ := (millFieldNames.take 7).findIdx (fun s => s == "VB")

/-- `create_labels` (data_prep_utils.py lines 187-236): for each of the 167
cuts, one row holding the 7 scalar metadata fields (columns named
`field_names[0:7]`), a `cut_no` column `0..166`, and a `tool_class` column
obtained by applying `tool_state` to the `VB` column.  Nothing else: no
`window_start`/`window_end` columns, no `cut_drop_list` filtering, and the
result is returned, not assigned to `self.df_labels`. -/
def create_labels (d : MillRaw) : DfCols :=
  { cols := millFieldNames.take 7 ++ ["cut_no", "tool_class"]
    rows := (List.range 167).map (fun (j : ℕ) => fun (name : String) =>
      if name = "cut_no" then some ((j : ℚ))
      else if name = "tool_class" then
        (tool_state (d.meta j vbIdx)).map (fun z => ((z : ℚ)))
      else
        match (millFieldNames.take 7).findIdx? (fun s => s == name) with
        | some i => d.meta j i
        | none => none) }

/-- The shape test `windowed_signal.shape == (self.window_size, 6)` of
data_prep_utils.py line 290. -/
def shapeOk (w : List (List ℚ)) (ws : ℕ) : Bool :=
  w.length == ws && w.all (fun r => r.length == 6)

/-- Whether the window starting at index `i` passes the shape test:
`cut_array[i*stride : i*stride + window_size]` (lines 285-287, with
Python slice clamping) followed by the shape test of line 290. -/
def acceptB (ca : List (List ℚ)) (ws s i : ℕ) : Bool :=
  shapeOk ((ca.drop (i * s)).take ws) ws

/-- The scanning loop of data_prep_utils.py lines 284-300:
`for i in range(cut_array.shape[0])`, keep the window `(i, slice)` while the
shape test passes and `break` at the first failure.  `fuel` is the number of
loop iterations remaining (initially `cut_array.shape[0]`). -/
def scanAux (ca : List (List ℚ)) (ws s : ℕ) : ℕ → ℕ → List (ℕ × List (List ℚ))
  | 0, _ => []
  | Nat.succ fuel, i =>
    if acceptB ca ws s i then
      (i, (ca.drop (i * s)).take ws) :: scanAux ca ws s fuel (i + 1)
    else []

/-- All windows emitted by the scanning loop, paired with their loop index
`i` (used for the `f"{cut_no}_{i}"` ids of line 294). -/
def scanWindows (ca : List (List ℚ)) (ws s : ℕ) : List (ℕ × List (List ℚ)) :=
  scanAux ca ws s ca.length 0

/-- The tuple returned by `create_data_array` on success
(data_prep_utils.py lines 302-331). -/
structure CreateOut where
  windows : List (List (List ℚ))
  ids : List String
  labels : List ℤ
  times : List ℚ
deriving DecidableEq

/-- `create_data_array` (data_prep_utils.py lines 238-331).  Failure modes
embedded: the `assert cut_no in self.df_labels["cut_no"].values` of
line 256 (plus the `AttributeError` when no label CSV was ever supplied,
since `__init__` then never sets `self.df_labels`); and the zero-window
case: when `sub_cut_list` is empty, `np.array([])` is one-dimensional with
shape `(0,)`, so `sub_cut_array.shape[1]` at line 305 raises `IndexError`.
On success the ids are `f"{cut_no}_{i}"`, the label is repeated per window,
and the times are `arange(window samples) / 250.0` (lines 293-319). -/
def create_data_array (p : MillPrep) (c : ℕ) : Except String CreateOut :=
  match p.df_labels with
  | none => Except.error "AttributeError: df_labels is not set"
  | some tbl =>
    match tbl.find? (fun row => row.cut_no == c) with
    | none => Except.error "AssertionError: Cut number must be in the dataframe"
    | some lr =>
      let ca := ((cutArray p.data c).drop lr.window_start).take
        (lr.window_end - lr.window_start)
      let subs := scanWindows ca p.window_size p.stride
      if subs.isEmpty then
        Except.error "IndexError: tuple index out of range"
      else
        Except.ok
          { windows := subs.map Prod.snd
            ids := subs.map (fun q => toString c ++ "_" ++ toString q.1)
            labels := subs.map (fun _ => lr.tool_class)
            times := (List.range ((subs.map Prod.snd).headD []).length).map
              (fun t => (t : ℚ) / 250) }

/-- Binary minimum on ℚ written with an explicit comparison so that it
evaluates inside the kernel (it agrees with `min`, see `rmin_le_left`,
`rmin_le_right` and `rmin_choice`). -/
def rmin (a b : ℚ) : ℚ := if a ≤ b then a else b

/-- Binary maximum on ℚ written with an explicit comparison. -/
def rmax (a b : ℚ) : ℚ := if a ≤ b then b else a

/-- `np.min` on a list of rationals (0 on an empty list; the aggregator is
only ever applied to the k nonempty per-fold score lists). -/
def npMin (xs : List ℚ) : ℚ :=
  match xs with
  | [] => 0
  | x :: t => t.foldl rmin x

/-- `np.max` on a list of rationals. -/
def npMax (xs : List ℚ) : ℚ :=
  match xs with
  | [] => 0
  | x :: t => t.foldl rmax x

/-- `np.min` on natural numbers (the `n_thresholds` counts). -/
def npMinNat (xs : List ℕ) : ℕ :=
  match xs with
  | [] => 0
  | x :: t => t.foldl min x

/-- `np.max` on natural numbers. -/
def npMaxNat (xs : List ℕ) : ℕ :=
  match xs with
  | [] => 0
  | x :: t => t.foldl max x

/-- `np.mean`. -/
def npMean (xs : List ℚ) : ℚ := xs.sum / xs.length

/-- The square of `np.std` (population variance).  `np.std` itself is the
square root of this quantity; the square root of a rational is irrational
in general, and the variance determines the standard deviation through the
order-preserving bijection `Real.sqrt` on nonnegatives, so the variance is
what the model records. -/
def npVar (xs : List ℚ) : ℚ := npMean (xs.map (fun x => (x - npMean xs) ^ 2))

/-- First index of the list holding the value `m` (list length if absent). -/
def firstIdxEq (m : ℚ) : List ℚ → ℕ
  | [] => 0
  | x :: t => if x = m then 0 else firstIdxEq m t + 1

/-- `np.argmin`: the first index attaining the minimum
(utils.py line 325). -/
def npArgmin (xs : List ℚ) : ℕ := firstIdxEq (npMin xs) xs

/-- The per-fold score collections handed to `get_model_metrics_df`
(the `model_metrics_dict` built by `collate_scores_binary_classification`,
utils.py lines 223-270): one entry per fold, with
`unique_test_groups` holding `unique_grouping[i]["unique_test_group"]`. -/
structure ModelMetrics where
  precision_score_array : List ℚ
  recall_score_array : List ℚ
  f1_score_array : List ℚ
  rocauc_array : List ℚ
  prauc_array : List ℚ
  accuracy_array : List ℚ
  n_thresholds_array : List ℕ
  unique_test_groups : List ℚ
deriving DecidableEq

/-- The single-row summary built by `get_model_metrics_df`
(utils.py lines 293-338).  The `_var` fields record the square of the
`np.std` values (see `npVar`). -/
structure SelectedMetrics where
  precision_score_min : ℚ
  precision_score_max : ℚ
  precision_score_avg : ℚ
  precision_score_var : ℚ
  recall_score_min : ℚ
  recall_score_max : ℚ
  recall_score_avg : ℚ
  recall_score_var : ℚ
  f1_score_min : ℚ
  f1_score_max : ℚ
  f1_score_avg : ℚ
  f1_score_var : ℚ
  rocauc_min : ℚ
  rocauc_max : ℚ
  rocauc_avg : ℚ
  rocauc_var : ℚ
  prauc_min : ℚ
  prauc_max : ℚ
  prauc_avg : ℚ
  prauc_var : ℚ
  accuracy_min : ℚ
  accuracy_max : ℚ
  accuracy_avg : ℚ
  accuracy_var : ℚ
  n_thresholds_min : ℕ
  n_thresholds_max : ℕ
  test_strat_group_worst_prauc : ℚ
deriving DecidableEq

/-- `get_model_metrics_df` (utils.py lines 293-338): min/max/mean/std per
scalar metric, min/max of the threshold counts, and the test group of the
fold at `np.argmin(prauc_array)`. -/
def get_model_metrics_df (m : ModelMetrics) : SelectedMetrics :=
  { precision_score_min := npMin m.precision_score_array
    precision_score_max := npMax m.precision_score_array
    precision_score_avg := npMean m.precision_score_array
    precision_score_var := npVar m.precision_score_array
    recall_score_min := npMin m.recall_score_array
    recall_score_max := npMax m.recall_score_array
    recall_score_avg := npMean m.recall_score_array
    recall_score_var := npVar m.recall_score_array
    f1_score_min := npMin m.f1_score_array
    f1_score_max := npMax m.f1_score_array
    f1_score_avg := npMean m.f1_score_array
    f1_score_var := npVar m.f1_score_array
    rocauc_min := npMin m.rocauc_array
    rocauc_max := npMax m.rocauc_array
    rocauc_avg := npMean m.rocauc_array
    rocauc_var := npVar m.rocauc_array
    prauc_min := npMin m.prauc_array
    prauc_max := npMax m.prauc_array
    prauc_avg := npMean m.prauc_array
    prauc_var := npVar m.prauc_array
    accuracy_min := npMin m.accuracy_array
    accuracy_max := npMax m.accuracy_array
    accuracy_avg := npMean m.accuracy_array
    accuracy_var := npVar m.accuracy_array
    n_thresholds_min := npMinNat m.n_thresholds_array
    n_thresholds_max := npMaxNat m.n_thresholds_array
    test_strat_group_worst_prauc :=
      m.unique_test_groups.getD (npArgmin m.prauc_array) 0 }

/-- An sklearn-style scaler: `fit` on a training matrix returns the fitted
`transform`. -/
structure Scaler where
  fit : List (List ℚ) → (List (List ℚ) → List (List ℚ))

/-- `scale_data` (utils.py lines 273-290): fit the chosen scaler on
`x_train` only, apply it to both matrices, and return
`(x_train, x_test, scaler)`; any other method name falls to the `else`
branch and returns the inputs unchanged with `scaler = None`.  The
`StandardScaler` and `MinMaxScaler` are passed in as collaborators (the
standard scaler divides by a square root, which has no exact rational
form; the dispatch and no-op logic under scrutiny do not depend on the
transforms themselves). -/
def scale_data (std mm : Scaler) (x_train x_test : List (List ℚ))
    (scaler_method : Option String) :
    List (List ℚ) × List (List ℚ) × Option (List (List ℚ) → List (List ℚ)) :=
  if scaler_method = some "standard" then
    let t := std.fit x_train
    (t x_train, t x_test, some t)
  else if scaler_method = some "minmax" then
    let t := mm.fit x_train
    (t x_train, t x_test, some t)
  else (x_train, x_test, none)

/-- Column `j` of a row-major matrix. -/
def colVals (x : List (List ℚ)) (j : ℕ) : List ℚ := x.map (fun r => r.getD j 0)

/-- sklearn `MinMaxScaler` with the default `[0, 1]` range:
`(v - col_min) / (col_max - col_min)` per column, fitted column bounds
taken from the training matrix (a zero column range is scaled by 1,
sklearn's `handle_zeros_in_scale`). -/
def minmaxFit (xtr : List (List ℚ)) : List (List ℚ) → List (List ℚ) :=
  fun x => x.map (fun r => r.enum.map (fun p =>
    let lo := npMin (colVals xtr p.1)
    let hi := npMax (colVals xtr p.1)
    let sc := if hi - lo = 0 then 1 else hi - lo
    (p.2 - lo) / sc))

/-- The concrete min-max scaler. -/
def minmaxScaler : Scaler := ⟨minmaxFit⟩

/-- A placeholder scaler for branches a theorem never takes. -/
def idScaler : Scaler := ⟨fun _ => id⟩

/-- The method names `under_over_sampler` recognizes
(utils.py lines 57-116). -/
def recognizedUO : List String :=
  ["random_over", "random_under", "random_under_bootstrap", "smote",
   "borderline_smote", "kmeans_smote", "svm_smote", "smote_enn",
   "smote_tomek", "adasyn"]

/-- `under_over_sampler` (utils.py lines 47-119): `method == None` returns
`(x, y)` unchanged; each recognized name dispatches to the corresponding
imbalanced-learn resampler (an external collaborator, passed in as `ext`,
keyed by the method name, with the requested class ratio); the final
`else` returns `(x, y)` unchanged. -/
def under_over_sampler
    (ext : String → ℚ → List (List ℚ) × List ℤ → List (List ℚ) × List ℤ)
    (x : List (List ℚ)) (y : List ℤ) (method : Option String) (r : ℚ) :
    List (List ℚ) × List ℤ :=
  match method with
  | none => (x, y)
  | some m =>
    if m = "random_over" then ext "random_over" r (x, y)
    else if m = "random_under" then ext "random_under" r (x, y)
    else if m = "random_under_bootstrap" then ext "random_under_bootstrap" r (x, y)
    else if m = "smote" then ext "smote" r (x, y)
    else if m = "borderline_smote" then ext "borderline_smote" r (x, y)
    else if m = "kmeans_smote" then ext "kmeans_smote" r (x, y)
    else if m = "svm_smote" then ext "svm_smote" r (x, y)
    else if m = "smote_enn" then ext "smote_enn" r (x, y)
    else if m = "smote_tomek" then ext "smote_tomek" r (x, y)
    else if m = "adasyn" then ext "adasyn" r (x, y)
    else (x, y)

/-- The data-conditioning part of one `kfold_cv` fold (train.py
lines 85-98 and 125-138): `scale_data(x_train, x_test, scaler_method)` is
called but its return value is NOT assigned (lines 86 and 126), so the
original matrices stay in use; then the train split is resampled, the
classifier is fit on the result (`clone_clf.fit(x_train, y_train)`), and
scored on `x_test` (`calculate_scores(clone_clf, x_test, y_test)`).  The
value returned here is (features-and-labels the classifier is fit on,
features it is scored on). -/
def kfold_fold (std mm : Scaler)
    (ext : String → ℚ → List (List ℚ) × List ℤ → List (List ℚ) × List ℤ)
    (x_train : List (List ℚ)) (y_train : List ℤ) (x_test : List (List ℚ))
    (uo_method scaler_method : Option String) (r : ℚ) :
    (List (List ℚ) × List ℤ) × List (List ℚ) :=
  let _ := scale_data std mm x_train x_test scaler_method
  let res := under_over_sampler ext x_train y_train uo_method r
  (res, x_test)

/-- One dataframe row as seen by the grouped branch of `kfold_cv`: its
stratification-group value, its `y` label, and its feature values. -/
structure DRow where
  group : ℚ
  y : ℤ
  feats : List ℚ
deriving DecidableEq

/-- Helper for `dropDuplicates`: keep elements not seen before. -/
def dedupFirstAux : List (ℚ × ℤ) → List (ℚ × ℤ) → List (ℚ × ℤ)
  | [], _ => []
  | a :: t, seen =>
    if a ∈ seen then dedupFirstAux t seen else a :: dedupFirstAux t (a :: seen)

/-- pandas `drop_duplicates`: keep the first occurrence of each value, in
order. -/
def dropDuplicates (l : List (ℚ × ℤ)) : List (ℚ × ℤ) := dedupFirstAux l []

/-- `df_strat = df[[stratification_grouping_col, y_label_col]].drop_duplicates()`
(train.py line 66): the distinct (group, label) pairs. -/
def df_strat (df : List DRow) : List (ℚ × ℤ) :=
  dropDuplicates (df.map (fun r => (r.group, r.y)))

/-- `df_strat.iloc[idx][stratification_grouping_col].values`: the group
values at the given positional indices of `df_strat`. -/
def stratVals (ds : List (ℚ × ℤ)) (idx : List ℕ) : List ℚ :=
  idx.filterMap (fun i => (ds.get? i).map Prod.fst)

/-- `train_strat_vals` (train.py line 74).  The fold indices come from the
external `StratifiedKFold` splitter; the definitions are parametric in
them. -/
def train_strat_vals (df : List DRow) (train_index : List ℕ) : List ℚ :=
  stratVals (df_strat df) train_index

/-- `test_strat_vals` (train.py line 75).  Computed by the source and then
never used: see `fold_x_test`. -/
def test_strat_vals (df : List DRow) (test_index : List ℕ) : List ℚ :=
  stratVals (df_strat df) test_index

/-- `x_train = df[df[stratification_grouping_col].isin(train_strat_vals)]`
(train.py line 77): the fold's train rows. -/
def fold_x_train (df : List DRow) (train_index : List ℕ) : List DRow :=
  df.filter (fun r => r.group ∈ train_strat_vals df train_index)

/-- `x_test = df[df[stratification_grouping_col].isin(train_strat_vals)]`
(train.py line 81): the fold's test rows.  The source filters by
`train_strat_vals`, not `test_strat_vals` — `test_index` is taken here
only to mirror the information available at that point in the source. -/
def fold_x_test (df : List DRow) (train_index : List ℕ) (_test_index : List ℕ) :
    List DRow :=
  df.filter (fun r => r.group ∈ train_strat_vals df train_index)

/-- A concrete raw recording: all metadata 0, all signal samples 0. -/
def dExRaw : MillRaw := { meta := fun _ _ => some 0, signal := fun _ _ _ => 0 }

/-- A prep whose single cut has valid range `[0, 10)` of length 10 < 64. -/
def prepC2 : MillPrep :=
  { data := dExRaw, window_size := 64, stride := 64, cut_drop_list := none
    df_labels := some [⟨0, 0, 10, 1⟩] }

/-- A prep whose single cut has valid range `[0, 63)` of length 63 < 64. -/
def prepC6a : MillPrep :=
  { data := dExRaw, window_size := 64, stride := 64, cut_drop_list := none
    df_labels := some [⟨0, 0, 63, 1⟩] }

/-- A prep whose single cut has valid range `[0, 130)` of length 130. -/
def prepC6b : MillPrep :=
  { data := dExRaw, window_size := 64, stride := 64, cut_drop_list := none
    df_labels := some [⟨0, 0, 130, 1⟩] }

/-- A tiny 3 x 6 cut matrix for exercising the scanning loop. -/
def caC7 : List (List ℚ) :=
  [[1, 2, 3, 4, 5, 6], [7, 8, 9, 10, 11, 12], [13, 14, 15, 16, 17, 18]]

/-- The first window the scan emits on `caC7` with window 2, stride 2. -/
def qC7 : ℕ × List (List ℚ) := (0, [[1, 2, 3, 4, 5, 6], [7, 8, 9, 10, 11, 12]])

/-- A two-row dataframe with two distinct groups and labels. -/
def dfC1 : List DRow := [⟨1, 0, [5]⟩, ⟨2, 1, [6]⟩]

/-- Concrete train features for the scaling fold example. -/
def xtrC3 : List (List ℚ) := [[0], [2]]

/-- Concrete train labels for the scaling fold example. -/
def ytrC3 : List ℤ := [0, 1]

/-- Concrete test features for the scaling fold example. -/
def xteC3 : List (List ℚ) := [[1]]

/-- A throwaway external resampler (never reached in the statements that
use it). -/
def extZero : String → ℚ → List (List ℚ) × List ℤ → List (List ℚ) × List ℤ :=
  fun _ _ _ => ([], [])

/-- The aggregation scenario of the spec: five folds with PR-AUC values
0.9, 0.5, 0.8, 0.95, 0.7, tagged with test groups 10..14. -/
def mC9 : ModelMetrics :=
  { precision_score_array := [1, 1, 1, 1, 1]
    recall_score_array := [1, 1, 1, 1, 1]
    f1_score_array := [1, 1, 1, 1, 1]
    rocauc_array := [1, 1, 1, 1, 1]
    prauc_array := [9/10, 1/2, 8/10, 19/20, 7/10]
    accuracy_array := [1, 1, 1, 1, 1]
    n_thresholds_array := [3, 5, 4, 2, 6]
    unique_test_groups := [10, 11, 12, 13, 14] }

lemma rmin_le_left (a b : ℚ) : rmin a b ≤ a := by
  unfold rmin
  split_ifs with h
  · exact le_refl a
  · exact le_of_lt (lt_of_not_le h)

lemma rmin_le_right (a b : ℚ) : rmin a b ≤ b := by
  unfold rmin
  split_ifs with h
  · exact h
  · exact le_refl b

lemma rmin_choice (a b : ℚ) : rmin a b = a ∨ rmin a b = b := by
  unfold rmin
  split_ifs with h
  · left; rfl
  · right; rfl

/-- Python `str.lower` on the ASCII channel names
(`[s.lower() for s in list(self.signal_names)]`, data_prep_utils.py
line 381), written as a character map so it evaluates in the kernel. -/
def lowerStr (s : String) : String := String.mk (s.data.map Char.toLower)

lemma foldlMin_le_init (t : List ℚ) (a : ℚ) : t.foldl rmin a ≤ a := by
  induction t generalizing a with
  | nil => simp
  | cons x xs ih =>
    simp only [List.foldl_cons]
    exact le_trans (ih (rmin a x)) (rmin_le_left a x)

lemma foldlMin_le_mem (t : List ℚ) (a x : ℚ) : x ∈ t → t.foldl rmin a ≤ x := by
  induction t generalizing a with
  | nil => intro hx; cases hx
  | cons b bs ih =>
    intro hx
    simp only [List.foldl_cons]
    rcases List.mem_cons.mp hx with h | h
    · subst h
      exact le_trans (foldlMin_le_init bs (rmin a x)) (rmin_le_right a x)
    · exact ih (rmin a b) h

lemma foldlMin_mem (t : List ℚ) (a : ℚ) :
    t.foldl rmin a = a ∨ t.foldl rmin a ∈ t := by
  induction t generalizing a with
  | nil => left; rfl
  | cons b bs ih =>
    simp only [List.foldl_cons]
    rcases ih (rmin a b) with h | h
    · rcases rmin_choice a b with h2 | h2
      · left; rw [h, h2]
      · right; rw [h, h2]; exact List.mem_cons_self b bs
    · right; exact List.mem_cons_of_mem b h

lemma npMin_le (xs : List ℚ) (x : ℚ) (hx : x ∈ xs) : npMin xs ≤ x := by
  cases xs with
  | nil => cases hx
  | cons b t =>
    simp only [npMin]
    rcases List.mem_cons.mp hx with h | h
    · subst h; exact foldlMin_le_init t x
    · exact foldlMin_le_mem t b x h

lemma npMin_mem (xs : List ℚ) (h : xs ≠ []) : npMin xs ∈ xs := by
  cases xs with
  | nil => exact absurd rfl h
  | cons b t =>
    simp only [npMin]
    rcases foldlMin_mem t b with h2 | h2
    · rw [h2]; exact List.mem_cons_self b t
    · exact List.mem_cons_of_mem b h2

lemma firstIdxEq_lt_length (m : ℚ) (xs : List ℚ) (h : m ∈ xs) :
    firstIdxEq m xs < xs.length := by
  induction xs with
  | nil => cases h
  | cons x t ih =>
    by_cases hx : x = m
    · simp [firstIdxEq, hx]
    · have hm : m ∈ t := by
        rcases List.mem_cons.mp h with h2 | h2
        · exact absurd h2.symm hx
        · exact h2
      simp only [firstIdxEq, if_neg hx, List.length_cons]
      exact Nat.succ_lt_succ (ih hm)

lemma firstIdxEq_getD (m : ℚ) (xs : List ℚ) (h : m ∈ xs) :
    xs.getD (firstIdxEq m xs) 0 = m := by
  induction xs with
  | nil => cases h
  | cons x t ih =>
    by_cases hx : x = m
    · simp [firstIdxEq, hx]
    · have hm : m ∈ t := by
        rcases List.mem_cons.mp h with h2 | h2
        · exact absurd h2.symm hx
        · exact h2
      simp only [firstIdxEq, if_neg hx, List.getD_cons_succ]
      exact ih hm

lemma firstIdxEq_earlier (m : ℚ) (xs : List ℚ) :
    ∀ j, j < firstIdxEq m xs → xs.getD j 0 ≠ m := by
  induction xs with
  | nil => intro j hj; simp [firstIdxEq] at hj
  | cons x t ih =>
    intro j hj
    by_cases hx : x = m
    · simp [firstIdxEq, hx] at hj
    · simp only [firstIdxEq, if_neg hx] at hj
      cases j with
      | zero => simpa using hx
      | succ k =>
        simp only [List.getD_cons_succ]
        exact ih k (by omega)

/-- Claim C9: given per-fold score records, the aggregator computes
min/max/mean/standard deviation for every scalar metric (the standard
deviation recorded through its square, see `npVar`) and min/max for the
threshold counts, and identifies the fold with minimal PR-AUC — first
occurrence winning on ties — reporting that fold's test group identifier:
the reported index is in range, it attains the minimum, every earlier fold
has a strictly larger PR-AUC, and the reported group is the one stored at
that index. -/
theorem c9_aggregate (m : ModelMetrics) (h : m.prauc_array ≠ []) :
    npArgmin m.prauc_array < m.prauc_array.length
    ∧ m.prauc_array.getD (npArgmin m.prauc_array) 0 = npMin m.prauc_array
    ∧ (∀ x ∈ m.prauc_array, npMin m.prauc_array ≤ x)
    ∧ (∀ j, j < npArgmin m.prauc_array →
        npMin m.prauc_array < m.prauc_array.getD j 0)
    ∧ (get_model_metrics_df m).test_strat_group_worst_prauc
        = m.unique_test_groups.getD (npArgmin m.prauc_array) 0
    ∧ (get_model_metrics_df m).prauc_min = npMin m.prauc_array
    ∧ (get_model_metrics_df m).prauc_max = npMax m.prauc_array
    ∧ (get_model_metrics_df m).prauc_avg = npMean m.prauc_array
    ∧ (get_model_metrics_df m).prauc_var = npVar m.prauc_array
    ∧ (get_model_metrics_df m).precision_score_min = npMin m.precision_score_array
    ∧ (get_model_metrics_df m).precision_score_max = npMax m.precision_score_array
    ∧ (get_model_metrics_df m).precision_score_avg = npMean m.precision_score_array
    ∧ (get_model_metrics_df m).precision_score_var = npVar m.precision_score_array
    ∧ (get_model_metrics_df m).recall_score_min = npMin m.recall_score_array
    ∧ (get_model_metrics_df m).recall_score_max = npMax m.recall_score_array
    ∧ (get_model_metrics_df m).recall_score_avg = npMean m.recall_score_array
    ∧ (get_model_metrics_df m).recall_score_var = npVar m.recall_score_array
    ∧ (get_model_metrics_df m).f1_score_min = npMin m.f1_score_array
    ∧ (get_model_metrics_df m).f1_score_max = npMax m.f1_score_array
    ∧ (get_model_metrics_df m).f1_score_avg = npMean m.f1_score_array
    ∧ (get_model_metrics_df m).f1_score_var = npVar m.f1_score_array
    ∧ (get_model_metrics_df m).rocauc_min = npMin m.rocauc_array
    ∧ (get_model_metrics_df m).rocauc_max = npMax m.rocauc_array
    ∧ (get_model_metrics_df m).rocauc_avg = npMean m.rocauc_array
    ∧ (get_model_metrics_df m).rocauc_var = npVar m.rocauc_array
    ∧ (get_model_metrics_df m).accuracy_min = npMin m.accuracy_array
    ∧ (get_model_metrics_df m).accuracy_max = npMax m.accuracy_array
    ∧ (get_model_metrics_df m).accuracy_avg = npMean m.accuracy_array
    ∧ (get_model_metrics_df m).accuracy_var = npVar m.accuracy_array
    ∧ (get_model_metrics_df m).n_thresholds_min = npMinNat m.n_thresholds_array
    ∧ (get_model_metrics_df m).n_thresholds_max = npMaxNat m.n_thresholds_array := by
  have hmem : npMin m.prauc_array ∈ m.prauc_array := npMin_mem _ h
  have h1 : npArgmin m.prauc_array < m.prauc_array.length :=
    firstIdxEq_lt_length _ _ hmem
  have h2 : m.prauc_array.getD (npArgmin m.prauc_array) 0 = npMin m.prauc_array :=
    firstIdxEq_getD _ _ hmem
  refine ⟨h1, h2, fun x hx => npMin_le _ _ hx, ?_, rfl, rfl, rfl, rfl, rfl, rfl,
    rfl, rfl, rfl, rfl, rfl, rfl, rfl, rfl, rfl, rfl, rfl, rfl, rfl, rfl, rfl,
    rfl, rfl, rfl, rfl, rfl, rfl⟩
  intro j hj
  have hjlen : j < m.prauc_array.length := lt_trans hj h1
  have hne : m.prauc_array.getD j 0 ≠ npMin m.prauc_array :=
    firstIdxEq_earlier _ _ j hj
  have hmemj : m.prauc_array.getD j 0 ∈ m.prauc_array := by
    rw [List.getD_eq_getElem _ _ hjlen]
    exact List.getElem_mem hjlen
  have hle : npMin m.prauc_array ≤ m.prauc_array.getD j 0 :=
    npMin_le _ _ hmemj
  exact lt_of_le_of_ne hle (Ne.symm hne)

/-- Witness for C9 at the spec's aggregation scenario: PR-AUC values
0.9, 0.5, 0.8, 0.95, 0.7 give minimum 0.5 at fold index 1, and the
reported worst test group is the one tagged on fold 1. -/
theorem c9_aggregate_w :
    mC9.prauc_array ≠ []
    ∧ npArgmin mC9.prauc_array = 1
    ∧ npMin mC9.prauc_array = 1/2
    ∧ (get_model_metrics_df mC9).test_strat_group_worst_prauc = 11
    ∧ ((get_model_metrics_df mC9).test_strat_group_worst_prauc
        = mC9.unique_test_groups.getD (npArgmin mC9.prauc_array) 0) :=
  ⟨by simp [mC9], by norm_num [mC9, npArgmin, npMin, rmin, firstIdxEq],
    by norm_num [mC9, npMin, rmin],
    by norm_num [mC9, get_model_metrics_df, npArgmin, npMin, rmin, firstIdxEq,
      List.getD],
    (c9_aggregate mC9 (by simp [mC9])).2.2.2.2.1⟩

lemma scanAux_zero (ca : List (List ℚ)) (ws s i : ℕ) :
    scanAux ca ws s 0 i = [] := rfl

lemma scanAux_succ (ca : List (List ℚ)) (ws s n i : ℕ) :
    scanAux ca ws s (n + 1) i =
      if acceptB ca ws s i then
        (i, (ca.drop (i * s)).take ws) :: scanAux ca ws s n (i + 1)
      else [] := rfl

lemma scanAux_length (ca : List (List ℚ)) (ws s : ℕ) (m : ℕ)
    (hacc : ∀ j, acceptB ca ws s j = decide (j < m)) :
    ∀ fuel i, (scanAux ca ws s fuel i).length = min fuel (m - i) := by
  intro fuel
  induction fuel with
  | zero => intro i; simp [scanAux_zero]
  | succ n ih =>
    intro i
    rw [scanAux_succ]
    by_cases h : i < m
    · rw [if_pos (by rw [hacc i]; exact decide_eq_true h)]
      simp only [List.length_cons, ih (i + 1)]
      omega
    · rw [if_neg (by rw [hacc i]; simp [h])]
      simp only [List.length_nil]
      omega

lemma shapeOk_spec (w : List (List ℚ)) (ws : ℕ) (h : shapeOk w ws = true) :
    w.length = ws ∧ ∀ r ∈ w, r.length = 6 := by
  unfold shapeOk at h
  rw [Bool.and_eq_true] at h
  rcases h with ⟨h1, h2⟩
  refine ⟨beq_iff_eq.mp h1, ?_⟩
  intro r hr
  exact beq_iff_eq.mp (List.all_eq_true.mp h2 r hr)

lemma acceptB_eq_of_widths (ca : List (List ℚ)) (ws s : ℕ) (hws : 0 < ws)
    (hrows : ∀ r ∈ ca, r.length = 6) (i : ℕ) :
    acceptB ca ws s i = decide (i * s + ws ≤ ca.length) := by
  have hall : ((ca.drop (i * s)).take ws).all (fun r => r.length == 6) = true := by
    rw [List.all_eq_true]
    intro r hr
    have hmem : r ∈ ca := List.drop_subset _ _ (List.take_subset _ _ hr)
    simp [hrows r hmem]
  have hlen : ((ca.drop (i * s)).take ws).length = min ws (ca.length - i * s) := by
    simp [List.length_take, List.length_drop]
  unfold acceptB shapeOk
  rw [hall, Bool.and_true, hlen]
  by_cases h : i * s + ws ≤ ca.length
  · have hmin : min ws (ca.length - i * s) = ws := by omega
    simp [hmin, h]
  · have hmin : min ws (ca.length - i * s) ≠ ws := by omega
    simp [hmin, h]

lemma scanWindows_length_64 (ca : List (List ℚ))
    (hrows : ∀ r ∈ ca, r.length = 6) :
    (scanWindows ca 64 64).length = ca.length / 64 := by
  have hacc : ∀ j, acceptB ca 64 64 j = decide (j < ca.length / 64) := by
    intro j
    rw [acceptB_eq_of_widths ca 64 64 (by norm_num) hrows j]
    by_cases h : j * 64 + 64 ≤ ca.length
    · have h2 : j < ca.length / 64 := by omega
      simp [h, h2]
    · have h2 : ¬ j < ca.length / 64 := by omega
      simp [h, h2]
  unfold scanWindows
  rw [scanAux_length ca 64 64 (ca.length / 64) hacc ca.length 0]
  omega

lemma scanAux_mem (ca : List (List ℚ)) (ws s : ℕ) :
    ∀ fuel i q, q ∈ scanAux ca ws s fuel i →
      acceptB ca ws s q.1 = true ∧ q.2 = (ca.drop (q.1 * s)).take ws := by
  intro fuel
  induction fuel with
  | zero => intro i q hq; rw [scanAux_zero] at hq; cases hq
  | succ n ih =>
    intro i q hq
    rw [scanAux_succ] at hq
    by_cases h : acceptB ca ws s i = true
    · rw [if_pos h] at hq
      rcases List.mem_cons.mp hq with h1 | h1
      · subst h1; exact ⟨h, rfl⟩
      · exact ih (i + 1) q h1
    · rw [if_neg h] at hq; cases hq

lemma scanAux_map_fst (ca : List (List ℚ)) (ws s : ℕ) :
    ∀ fuel i, (scanAux ca ws s fuel i).map Prod.fst
      = List.range' i (scanAux ca ws s fuel i).length := by
  intro fuel
  induction fuel with
  | zero => intro i; simp [scanAux_zero]
  | succ n ih =>
    intro i
    rw [scanAux_succ]
    by_cases h : acceptB ca ws s i = true
    · rw [if_pos h]
      simp only [List.map_cons, List.length_cons, ih (i + 1)]
      rw [List.range'_succ i _ 1]
    · rw [if_neg h]
      simp

lemma scanAux_stop (ca : List (List ℚ)) (ws s : ℕ) :
    ∀ fuel i, (scanAux ca ws s fuel i).length < fuel →
      acceptB ca ws s (i + (scanAux ca ws s fuel i).length) = false := by
  intro fuel
  induction fuel with
  | zero => intro i h; exact absurd h (Nat.not_lt_zero _)
  | succ n ih =>
    intro i h
    by_cases hb : acceptB ca ws s i = true
    · rw [scanAux_succ, if_pos hb] at h ⊢
      simp only [List.length_cons] at h ⊢
      have h2 : (scanAux ca ws s n (i + 1)).length < n := by omega
      have h3 := ih (i + 1) h2
      have harr : i + ((scanAux ca ws s n (i + 1)).length + 1)
          = (i + 1) + (scanAux ca ws s n (i + 1)).length := by omega
      rw [harr]
      exact h3
    · rw [scanAux_succ, if_neg hb] at h ⊢
      simp only [List.length_nil, Nat.add_zero]
      exact Bool.eq_false_iff.mpr hb

lemma cutArray_length (d : MillRaw) (c : ℕ) : (cutArray d c).length = 9000 := by
  simp [cutArray]

lemma cutArray_widths (d : MillRaw) (c : ℕ) :
    ∀ r ∈ cutArray d c, r.length = 6 := by
  intro r hr
  simp only [cutArray, List.mem_map] at hr
  obtain ⟨t, _, rfl⟩ := hr
  simp only [List.length_map]
  rfl

lemma create_data_array_zero_windows (p : MillPrep) (tbl : List LabelRow)
    (lr : LabelRow) (c : ℕ)
    (htbl : p.df_labels = some tbl)
    (hfind : tbl.find? (fun row => row.cut_no == c) = some lr)
    (hw : p.window_size = 64) (hs : p.stride = 64)
    (hend : lr.window_end ≤ 9000) (hse : lr.window_start ≤ lr.window_end)
    (hsmall : lr.window_end - lr.window_start < 64) :
    create_data_array p c = Except.error "IndexError: tuple index out of range" := by
  have hca : (((cutArray p.data c).drop lr.window_start).take
      (lr.window_end - lr.window_start)).length
      = lr.window_end - lr.window_start := by
    simp only [List.length_take, List.length_drop, cutArray_length]
    omega
  have hwid : ∀ r ∈ ((cutArray p.data c).drop lr.window_start).take
      (lr.window_end - lr.window_start), r.length = 6 := by
    intro r hr
    exact cutArray_widths p.data c r
      (List.drop_subset _ _ (List.take_subset _ _ hr))
  have hscan := scanWindows_length_64 _ hwid
  rw [hca] at hscan
  have hz : (lr.window_end - lr.window_start) / 64 = 0 := by omega
  have hnil : scanWindows (((cutArray p.data c).drop lr.window_start).take
      (lr.window_end - lr.window_start)) 64 64 = [] := by
    refine List.length_eq_zero.mp ?_
    rw [hscan, hz]
  simp only [create_data_array, htbl, hfind, hw, hs, hnil, List.isEmpty_nil,
    if_true]

lemma create_data_array_count (p : MillPrep) (tbl : List LabelRow)
    (lr : LabelRow) (c : ℕ)
    (htbl : p.df_labels = some tbl)
    (hfind : tbl.find? (fun row => row.cut_no == c) = some lr)
    (hw : p.window_size = 64) (hs : p.stride = 64)
    (hend : lr.window_end ≤ 9000) (hse : lr.window_start ≤ lr.window_end)
    (hbig : 64 ≤ lr.window_end - lr.window_start) :
    ∃ out, create_data_array p c = Except.ok out
      ∧ out.windows.length = (lr.window_end - lr.window_start) / 64 := by
  have hca : (((cutArray p.data c).drop lr.window_start).take
      (lr.window_end - lr.window_start)).length
      = lr.window_end - lr.window_start := by
    simp only [List.length_take, List.length_drop, cutArray_length]
    omega
  have hwid : ∀ r ∈ ((cutArray p.data c).drop lr.window_start).take
      (lr.window_end - lr.window_start), r.length = 6 := by
    intro r hr
    exact cutArray_widths p.data c r
      (List.drop_subset _ _ (List.take_subset _ _ hr))
  have hscan := scanWindows_length_64 _ hwid
  rw [hca] at hscan
  obtain ⟨q, rest, hcons⟩ : ∃ q rest,
      scanWindows (((cutArray p.data c).drop lr.window_start).take
        (lr.window_end - lr.window_start)) 64 64 = q :: rest := by
    cases hc : scanWindows (((cutArray p.data c).drop lr.window_start).take
        (lr.window_end - lr.window_start)) 64 64 with
    | nil =>
      rw [hc] at hscan
      simp only [List.length_nil] at hscan
      omega
    | cons q rest => exact ⟨q, rest, rfl⟩
  have hok : create_data_array p c = Except.ok
      { windows := (q :: rest).map Prod.snd
        ids := (q :: rest).map (fun t => toString c ++ "_" ++ toString t.1)
        labels := (q :: rest).map (fun _ => lr.tool_class)
        times := (List.range (((q :: rest).map Prod.snd).headD []).length).map
          (fun t => (t : ℚ) / 250) } := by
    simp [create_data_array, htbl, hfind, hw, hs, hcons]
  refine ⟨_, hok, ?_⟩
  simp only [List.length_map]
  rw [← hcons]
  exact hscan

/-- Claim C2 (code defect evidence): a cut whose valid range `[0, 10)` is
shorter than the window size 64 does NOT return normally with zero windows
— `np.array` of the empty window list is one-dimensional, so
`sub_cut_array.shape[1]` raises `IndexError` (data_prep_utils.py
line 305). -/
theorem c2_zero_window_failure :
    create_data_array prepC2 0
      = Except.error "IndexError: tuple index out of range" :=
  create_data_array_zero_windows prepC2 _ ⟨0, 0, 10, 1⟩ 0 rfl rfl rfl rfl
    (by decide) (by decide) (by decide)

/-- Claim C6 counterexample: a cut with valid range length L = 63 should,
by the claim, yield `floor(63/64) = 0` windows; instead `create_data_array`
raises `IndexError` (data_prep_utils.py line 305), so the claim fails for
every L < 64. -/
theorem c6_counterexample :
    create_data_array prepC6a 0
      = Except.error "IndexError: tuple index out of range" :=
  create_data_array_zero_windows prepC6a _ ⟨0, 0, 63, 1⟩ 0 rfl rfl rfl rfl
    (by decide) (by decide) (by decide)

/-- Claim C6 (amended): for every cut whose valid range
`[window_start, window_end)` has length L ≥ 64, `create_data_array` with
`window_size = 64` and `stride = 64` succeeds and emits exactly
`floor(L/64)` windows; for L < 64 it raises instead of returning zero
windows (see the counterexample). -/
theorem c6_window_count (p : MillPrep) (tbl : List LabelRow)
    (lr : LabelRow) (c : ℕ)
    (htbl : p.df_labels = some tbl)
    (hfind : tbl.find? (fun row => row.cut_no == c) = some lr)
    (hw : p.window_size = 64) (hs : p.stride = 64)
    (hend : lr.window_end ≤ 9000) (hse : lr.window_start ≤ lr.window_end)
    (hbig : 64 ≤ lr.window_end - lr.window_start) :
    ∃ out, create_data_array p c = Except.ok out
      ∧ out.windows.length = (lr.window_end - lr.window_start) / 64 :=
  create_data_array_count p tbl lr c htbl hfind hw hs hend hse hbig

/-- Witness for C6 (amended) at a cut with valid range `[0, 130)`:
the call succeeds and emits `floor(130/64) = 2` windows. -/
theorem c6_window_count_w :
    prepC6b.df_labels = some [⟨0, 0, 130, 1⟩]
    ∧ (130 : ℕ) ≤ 9000 ∧ (0 : ℕ) ≤ 130 ∧ (64 : ℕ) ≤ 130 - 0
    ∧ (130 - 0) / 64 = 2
    ∧ (∃ out, create_data_array prepC6b 0 = Except.ok out
        ∧ out.windows.length = (130 - 0) / 64) :=
  ⟨rfl, by decide, by decide, by decide, by decide,
    c6_window_count prepC6b [⟨0, 0, 130, 1⟩] ⟨0, 0, 130, 1⟩ 0 rfl rfl rfl rfl
      (by decide) (by decide) (by decide)⟩

/-- Claim C7: every window emitted by the scanning loop of
`create_data_array` has exactly `window_size` rows of 6 channels each and
is the slice `[i*stride, i*stride + window_size)`; the loop visits
`i = 0, 1, 2, ...` consecutively (the emitted indices are exactly
`0 .. count-1`) and stops at the first index whose slice fails the shape
test, so no partial window is ever emitted. -/
theorem c7_window_shape (ca : List (List ℚ)) (ws s : ℕ)
    (q : ℕ × List (List ℚ)) (hq : q ∈ scanWindows ca ws s) :
    q.2.length = ws
    ∧ (∀ r ∈ q.2, r.length = 6)
    ∧ q.2 = (ca.drop (q.1 * s)).take ws
    ∧ (scanWindows ca ws s).map Prod.fst
        = List.range (scanWindows ca ws s).length
    ∧ ((scanWindows ca ws s).length < ca.length →
        acceptB ca ws s (scanWindows ca ws s).length = false) := by
  have hmem := scanAux_mem ca ws s ca.length 0 q hq
  have hsh : shapeOk q.2 ws = true := by
    rw [hmem.2]
    exact hmem.1
  obtain ⟨hlen, hwid⟩ := shapeOk_spec _ _ hsh
  refine ⟨hlen, hwid, hmem.2, ?_, ?_⟩
  · rw [List.range_eq_range']
    exact scanAux_map_fst ca ws s ca.length 0
  · intro hlt
    have hstop := scanAux_stop ca ws s ca.length 0 hlt
    simpa using hstop

/-- Witness for C7 on a 3-row, 6-channel matrix with window 2 and
stride 2: the scan emits one full 2 x 6 window at index 0 and stops at
index 1, whose slice is short. -/
theorem c7_window_shape_w :
    qC7 ∈ scanWindows caC7 2 2
    ∧ (qC7.2.length = 2
      ∧ (∀ r ∈ qC7.2, r.length = 6)
      ∧ qC7.2 = (caC7.drop (qC7.1 * 2)).take 2
      ∧ (scanWindows caC7 2 2).map Prod.fst
          = List.range (scanWindows caC7 2 2).length
      ∧ ((scanWindows caC7 2 2).length < caC7.length →
          acceptB caC7 2 2 (scanWindows caC7 2 2).length = false)) :=
  ⟨by decide, c7_window_shape caC7 2 2 qC7 (by decide)⟩

/-- Claim C5: the tool-class mapping returns 0 for `vb < 0.2`, 1 for
`0.2 <= vb < 0.7`, 2 for `vb >= 0.7`, and a distinct missing value (`none`,
not 0/1/2) for a null wear measurement — the null case is never collapsed
to a numeric class. -/
theorem c5_tool_state (x : ℚ) :
    (x < 2/10 → tool_state (some x) = some 0)
    ∧ (2/10 ≤ x → x < 7/10 → tool_state (some x) = some 1)
    ∧ (7/10 ≤ x → tool_state (some x) = some 2)
    ∧ tool_state none = none := by
  refine ⟨?_, ?_, ?_, rfl⟩
  · intro h
    simp [tool_state, vbLt, h]
  · intro h1 h2
    simp [tool_state, vbLt, vbGe, h1, h2, not_lt.mpr h1]
  · intro h
    have h1 : ¬ x < 2/10 := not_lt.mpr (le_trans (by norm_num) h)
    have h2 : ¬ x < 7/10 := not_lt.mpr h
    simp [tool_state, vbLt, vbGe, h1, h2, h]

/-- Witness for C5 at the spec's examples: `vb = 0.1 → 0`, `vb = 0.2 → 1`,
`vb = 0.69 → 1`, `vb = 0.7 → 2`, `vb = null → missing`. -/
theorem c5_tool_state_w :
    ((1:ℚ)/10 < 2/10 ∧ tool_state (some (1/10)) = some 0)
    ∧ ((2:ℚ)/10 ≤ 2/10 ∧ (2:ℚ)/10 < 7/10 ∧ tool_state (some (2/10)) = some 1)
    ∧ ((2:ℚ)/10 ≤ 69/100 ∧ (69:ℚ)/100 < 7/10
        ∧ tool_state (some (69/100)) = some 1)
    ∧ ((7:ℚ)/10 ≤ 7/10 ∧ tool_state (some (7/10)) = some 2)
    ∧ tool_state none = none :=
  ⟨⟨by norm_num, (c5_tool_state (1/10)).1 (by norm_num)⟩,
   ⟨by norm_num, by norm_num,
     (c5_tool_state (2/10)).2.1 (by norm_num) (by norm_num)⟩,
   ⟨by norm_num, by norm_num,
     (c5_tool_state (69/100)).2.1 (by norm_num) (by norm_num)⟩,
   ⟨by norm_num, (c5_tool_state (7/10)).2.2.1 (by norm_num)⟩,
   (c5_tool_state 0).2.2.2⟩

/-- Claim C8: an unrecognized resampling method name makes
`under_over_sampler` return `(x, y)` unchanged, and a scaling method
outside standard/minmax makes `scale_data` return the train and test
matrices unchanged (with no fitted scaler) — silent no-op passthrough,
never an error. -/
theorem c8_passthrough
    (ext : String → ℚ → List (List ℚ) × List ℤ → List (List ℚ) × List ℤ)
    (x : List (List ℚ)) (y : List ℤ) (method : Option String) (r : ℚ)
    (std mm : Scaler) (xtr xte : List (List ℚ)) (sm : Option String)
    (hm : method ∉ recognizedUO.map some)
    (hs1 : sm ≠ some "standard") (hs2 : sm ≠ some "minmax") :
    under_over_sampler ext x y method r = (x, y)
    ∧ scale_data std mm xtr xte sm = (xtr, xte, none) := by
  constructor
  · cases method with
    | none => rfl
    | some m =>
      simp only [recognizedUO, List.map_cons, List.map_nil, List.mem_cons,
        List.not_mem_nil, or_false, Option.some.injEq] at hm
      push_neg at hm
      obtain ⟨h1, h2, h3, h4, h5, h6, h7, h8, h9, h10⟩ := hm
      simp [under_over_sampler, h1, h2, h3, h4, h5, h6, h7, h8, h9, h10]
  · simp [scale_data, hs1, hs2]

/-- Witness for C8 at the unrecognized names "foo" (resampling) and
"robust" (scaling): both are exact no-ops. -/
theorem c8_passthrough_w :
    some "foo" ∉ recognizedUO.map some
    ∧ some "robust" ≠ some "standard"
    ∧ some "robust" ≠ some "minmax"
    ∧ under_over_sampler extZero [[1]] [0] (some "foo") (1/2) = ([[1]], [0])
    ∧ scale_data idScaler minmaxScaler [[1]] [[2]] (some "robust")
        = ([[1]], [[2]], none) :=
  ⟨by decide, by decide, by decide,
    (c8_passthrough extZero [[1]] [0] (some "foo") (1/2) idScaler minmaxScaler
      [[1]] [[2]] (some "robust") (by decide) (by decide) (by decide)).1,
    (c8_passthrough extZero [[1]] [0] (some "foo") (1/2) idScaler minmaxScaler
      [[1]] [[2]] (some "robust") (by decide) (by decide) (by decide)).2⟩

/-- Claim C1 (code defect evidence): in the group-stratified branch of
`kfold_cv` the test rows are selected with `train_strat_vals`
(train.py line 81 — `test_strat_vals` is computed on line 75 and never
used), so the test partition always equals the train partition.  On a
dataframe with groups 1 and 2 and a fold whose splitter assigns strat row 0
(group 1) to train and strat row 1 (group 2) to test, group 1's rows appear
in both the train and the test row sets, violating group isolation. -/
theorem c1_group_isolation_bug :
    (∀ (df : List DRow) (ti te : List ℕ),
      fold_x_test df ti te = fold_x_train df ti)
    ∧ fold_x_train dfC1 [0] = [⟨1, 0, [5]⟩]
    ∧ fold_x_test dfC1 [0] [1] = [⟨1, 0, [5]⟩]
    ∧ test_strat_vals dfC1 [1] = [2]
    ∧ (fold_x_train dfC1 [0]).map DRow.group = [1]
    ∧ (fold_x_test dfC1 [0] [1]).map DRow.group = [1] :=
  ⟨fun _ _ _ => rfl, by decide, by decide, by decide, by decide, by decide⟩

/-- Claim C3 (code defect evidence): `kfold_cv` calls
`scale_data(x_train, x_test, scaler_method)` but never assigns the returned
scaled matrices (train.py lines 86 and 126), so the classifier is fit on
the raw resampled `x_train` and scored on the raw `x_test`.  With
`scaler_method = "minmax"`, train `[[0],[2]]` and test `[[1]]`, the
discarded scaled matrices are `[[0],[1]]` and `[[1/2]]`, yet the fold fits
on `[[0],[2]]` and scores on `[[1]]`. -/
theorem c3_scaling_discarded :
    (kfold_fold idScaler minmaxScaler extZero xtrC3 ytrC3 xteC3 none
        (some "minmax") (1/2)).1.1 = xtrC3
    ∧ (kfold_fold idScaler minmaxScaler extZero xtrC3 ytrC3 xteC3 none
        (some "minmax") (1/2)).1.2 = ytrC3
    ∧ (kfold_fold idScaler minmaxScaler extZero xtrC3 ytrC3 xteC3 none
        (some "minmax") (1/2)).2 = xteC3
    ∧ (scale_data idScaler minmaxScaler xtrC3 xteC3 (some "minmax")).1
        = [[0], [1]]
    ∧ (scale_data idScaler minmaxScaler xtrC3 xteC3 (some "minmax")).2.1
        = [[1/2]] := by
  refine ⟨rfl, rfl, rfl, ?_, ?_⟩
  · unfold scale_data
    rw [if_neg (by decide), if_pos rfl]
    norm_num [minmaxScaler, minmaxFit, colVals, npMin, npMax,
      rmin, rmax, xtrC3, xteC3, List.enum, List.enumFrom]
  · unfold scale_data
    rw [if_neg (by decide), if_pos rfl]
    norm_num [minmaxScaler, minmaxFit, colVals, npMin, npMax,
      rmin, rmax, xtrC3, xteC3, List.enum, List.enumFrom]

/-- Claim C4 counterexample: constructing `MillingDataPrep` without a label
table derives nothing — `df_labels` is never set (the constructor only
warns), so the next segmentation call fails immediately; moreover even the
separately callable `create_labels` output has no `window_start` column, so
segmentation could not work from it either. -/
theorem c4_counterexample :
    (millInit dExRaw none none 64 64).df_labels = none
    ∧ create_data_array (millInit dExRaw none none 64 64) 0
        = Except.error "AttributeError: df_labels is not set"
    ∧ (create_labels dExRaw).cols.contains "window_start" = false :=
  ⟨rfl, rfl, by decide⟩

/-- Claim C4 (amended): when constructed without a label table, the
constructor only warns and sets no table (segmentation then fails on the
missing attribute); the separate `create_labels` method, when called,
derives a table whose columns are exactly the seven raw metadata fields
plus `cut_no` (0..166) and `tool_class` (obtained from the `VB` wear
column via `tool_state`) — with no valid-sample-range bounds
(`window_start`/`window_end`) and no exclusion-list filtering — so
subsequent segmentation does not work as if the table had been supplied. -/
theorem c4_create_labels (d : MillRaw) (drop : Option (List ℕ)) (w s : ℕ) :
    (millInit d none drop w s).df_labels = none
    ∧ create_data_array (millInit d none drop w s) 0
        = Except.error "AttributeError: df_labels is not set"
    ∧ (create_labels d).cols
        = ["case", "run", "VB", "time", "DOC", "feed", "material",
           "cut_no", "tool_class"]
    ∧ (create_labels d).cols.contains "window_start" = false
    ∧ (create_labels d).cols.contains "window_end" = false
    ∧ (create_labels d).rows.length = 167
    ∧ (create_labels d).rows.map (fun row => row "cut_no")
        = (List.range 167).map (fun (j : ℕ) => some ((j : ℚ)))
    ∧ (create_labels d).rows.map (fun row => row "tool_class")
        = (List.range 167).map (fun (j : ℕ) =>
            (tool_state (d.meta j 2)).map (fun z => ((z : ℚ)))) := by
  refine ⟨rfl, rfl, rfl, rfl, rfl, by simp [create_labels], ?_, ?_⟩
  · simp only [create_labels, List.map_map]
    apply List.map_congr_left
    intro j _
    simp
  · simp only [create_labels, List.map_map]
    apply List.map_congr_left
    intro j _
    simp [show vbIdx = 2 from rfl]

/-- Claim C10: `signal_names = field_names[7:][::-1]`, so the six signal
channels are stacked, and the flattened dataframe's channel columns
(ae_spindle, ae_table, vib_spindle, vib_table, smcdc, smcac, in that
order) hold the raw signal fields in reverse dtype order: channel column
`j` holds the field at dtype position `12 - j` (last field index minus
`j`). -/
theorem c10_channel_order :
    millSignalNames
      = ["AE_spindle", "AE_table", "vib_spindle", "vib_table",
         "smcDC", "smcAC"]
    ∧ millSignalNames.map lowerStr
      = ["ae_spindle", "ae_table", "vib_spindle", "vib_table",
         "smcdc", "smcac"]
    ∧ (colNamesOrdered.drop 3).take 6 = millSignalNames.map lowerStr
    ∧ millSignalNames
      = (List.range 6).map (fun j => millFieldNames.getD (12 - j) "") := by
  refine ⟨by decide, by decide, by decide, by decide⟩
